import Mathlib

/-!
# Weather gateway (`src/server.js`): shallow embedding and verification

The program is a stateless request/response translator over the National
Weather Service API.  It exposes the same two logical operations (alerts by
state, forecast by coordinate) on three surfaces:

* two Express routes, `GET /alerts/:state` and `GET /forecast` (plus a static
  `GET /health`),
* two MCP tools, `get-alerts` and `get-forecast`, with zod parameter schemas,
* one MCP resource, `weather-data`, whose URI query string carries a `type`
  discriminator plus the parameters.

All five handlers funnel every upstream call through one helper,
`makeNWSRequest`, which collapses every failure to `null`.

The embedding below models JSON values, JavaScript truthiness, the fetch
helper, and each handler as a pure function from a network oracle
(`net : Json → FetchOutcome`, the behaviour of the outside world at each
requested URL) to the handler's response paired with the ordered list of URLs
it passed to `makeNWSRequest` (each such call performs exactly one network
request, so that list is the network-call trace).
-/

/-- JSON values as delivered by `response.json()`.  JavaScript `undefined`
(absent property) is collapsed into `null`: the program only ever branches on
truthiness, and both are falsy. -/
inductive Json where
  | null
  | bool (b : Bool)
  | num (q : ℚ)
  | str (s : String)
  | arr (elems : List Json)
  | obj (fields : List (String × Json))

/-- JavaScript truthiness of a JSON value (`null`, `false`, `0`, `""` are
falsy; every object and array is truthy). -/
def truthy : Json → Bool
  | .null => false
  | .bool b => b
  | .num q => !(decide (q = 0))
  | .str s => !(decide (s = ""))
  | .arr _ => true
  | .obj _ => true

/-- JavaScript property access `j[k]` on a parsed JSON value; an absent
property, or access on a non-object, yields `undefined`, modelled as
`Json.null` (the program immediately tests the result for truthiness, and it
uses `?.` wherever the base could be `null`). -/
def getField : Json → String → Json
  | .obj fs, k =>
    match fs.find? (fun p => p.1 == k) with
    | some p => p.2
    | none => .null
  | _, _ => .null

/-- JavaScript `a || b`. -/
def jsOr (a b : Json) : Json := if truthy a then a else b

/-- JavaScript `x.length === 0` for the values the program applies it to:
arrays and strings have a `length`; on any other value `x.length` is
`undefined` and `undefined === 0` is `false`. -/
def lengthIsZero : Json → Bool
  | .arr xs => xs.isEmpty
  | .str s => decide (s = "")
  | _ => false

/-- `String.prototype.toUpperCase()` restricted to the ASCII range (the simple
uppercase mapping; state codes and coordinate strings are ASCII). -/
def upperChar (c : Char) : Char :=
  if 'a' ≤ c ∧ c ≤ 'z' then Char.ofNat (c.toNat - 32) else c

/-- JavaScript `s.toUpperCase()` (ASCII simple mapping). -/
def jsUpper (s : String) : String := ⟨s.data.map upperChar⟩

/-- Truthiness of an Express query parameter / `URLSearchParams.get` result:
`undefined`/`null` (absent) and `""` are falsy, every other string truthy. -/
def optTruthy : Option String → Bool
  | none => false
  | some s => !(decide (s = ""))

/-- One character of the ASCII decimal rendering (`'0'`–`'9'`). -/
def digitChar4 (n : ℕ) : Char := Char.ofNat (48 + n % 10)

/-- The exactly-four-digit, zero-padded fractional block of `toFixed(4)`
applied to a rounded scaled value `m < 10000`. -/
def frac4 (m : ℕ) : String :=
  ⟨[digitChar4 (m / 1000), digitChar4 (m / 100), digitChar4 (m / 10), digitChar4 m]⟩

/-- `|q| · 10⁴` rounded half-up to a natural number:
`⌊|q|·10⁴ + 1/2⌋ = (2·|num|·10⁴ + den) / (2·den)` in integer division. -/
def round4 (q : ℚ) : ℕ := (2 * (q.num.natAbs * 10000) + q.den) / (2 * q.den)

/-- ECMAScript `Number.prototype.toFixed(4)` on the embedded (exact rational)
numbers: sign, then the integer part, then `'.'`, then exactly four fraction
digits, rounding half away from zero. -/
def toFixed4 (q : ℚ) : String :=
  let n : ℕ := round4 q
  (if q.num < 0 then "-" else "") ++ toString (n / 10000) ++ "." ++ frac4 (n % 10000)

/-- Stand-in for JavaScript template interpolation `\x7b$\x7dnumber` of a
number (shortest-round-trip float formatting is abstracted; no claim depends
on its exact output, only on message shapes). -/
def numToString (q : ℚ) : String := toString q

mutual

/-- `JSON.stringify(data, null, 2)` up to whitespace and string escaping
(the exact serialisation is immaterial to every claim: it is only ever applied
to a whole document, so equal documents give equal text). -/
def stringify : Json → String
  | .null => "null"
  | .bool true => "true"
  | .bool false => "false"
  | .num q => numToString q
  | .str s => "\"" ++ s ++ "\""
  | .arr xs => "[" ++ stringifyElems xs ++ "]"
  | .obj fs => "\x7b" ++ stringifyFields fs ++ "\x7d"

/-- Comma-separated serialisation of array elements. -/
def stringifyElems : List Json → String
  | [] => ""
  | [x] => stringify x
  | x :: xs => stringify x ++ "," ++ stringifyElems xs

/-- Comma-separated serialisation of object fields. -/
def stringifyFields : List (String × Json) → String
  | [] => ""
  | [(k, v)] => "\"" ++ k ++ "\":" ++ stringify v
  | (k, v) :: fs => "\"" ++ k ++ "\":" ++ stringify v ++ "," ++ stringifyFields fs

end

/-- `const NWS_API_BASE = "https://api.weather.gov"`. -/
def NWS_API_BASE : String := "https://api.weather.gov"

/-- What the outside world does with one `fetch(url, { headers })` call:
either the promise rejects (DNS, connection — a transport-level failure), or a
response arrives with a status code and a body; `body = none` models a body
that fails to parse as JSON (`response.json()` throws). -/
inductive FetchOutcome where
  | transportError
  | response (status : ℕ) (body : Option Json)

/-- `response.ok`: status in the inclusive range 200–299. -/
def responseOk (status : ℕ) : Bool := 200 ≤ status && status < 300

/-- `makeNWSRequest(url)` (src/server.js:30-46): `fetch` the URL; if
`!response.ok`, throw; otherwise return `await response.json()`; any error
thrown anywhere in the `try` block is caught and becomes `null`.  The result
is the JSON value the caller sees (`null` for every failure). -/
def makeNWSRequest : FetchOutcome → Json
  | .transportError => .null
  | .response status body =>
    if responseOk status then
      match body with
      | some j => j
      | none => .null
    else .null

/-- A network oracle: the `FetchOutcome` the world produces for each URL the
program fetches.  URLs are carried as `Json` values because the forecast
locator extracted from the grid document is passed to `makeNWSRequest`
unconverted (constructed URLs are always `Json.str`). -/
def Net : Type := Json → FetchOutcome

/-- The alerts-by-area URL, `NWS_API_BASE + "/alerts?area=" + st`, built by all
three alert surfaces from the uppercased state code. -/
def alertsUrlOf (st : String) : Json :=
  .str (NWS_API_BASE ++ "/alerts?area=" ++ st)

/-- The grid-lookup URL `NWS_API_BASE + "/points/" + lat + "," + lon` as built
from raw strings by the REST route and by the resource handler. -/
def pointsUrlOf (lat lon : String) : Json :=
  .str (NWS_API_BASE ++ "/points/" ++ lat ++ "," ++ lon)

/-- The grid-lookup URL as built by the `get-forecast` tool, which formats the
numeric coordinates with `toFixed(4)` first. -/
def toolPointsUrlOf (latitude longitude : ℚ) : Json :=
  .str (NWS_API_BASE ++ "/points/" ++ toFixed4 latitude ++ "," ++ toFixed4 longitude)

/-- An Express response: the status code (`res.json` defaults to 200) and the
JSON body. -/
structure RestResponse where
  status : ℕ
  body : Json

/-- `res.status(s).json({ error: msg })`. -/
def errorBody (msg : String) : Json := .obj [("error", .str msg)]

/-- `GET /alerts/:state` (src/server.js:51-65).  The path parameter is always
a non-empty string when the route matches; the handler uppercases it, fetches
the alerts-by-area URL, answers 500 on a falsy result and 200 with the
document otherwise.  Second component: the network-call trace. -/
def restAlerts (net : Net) (state : String) : RestResponse × List Json :=
  let stateUp := jsUpper state
  let alertsUrl := alertsUrlOf stateUp
  let alertsData := makeNWSRequest (net alertsUrl)
  if !(truthy alertsData) then
    (⟨500, errorBody "Failed to retrieve alerts data"⟩, [alertsUrl])
  else
    (⟨200, alertsData⟩, [alertsUrl])

/-- `GET /forecast` (src/server.js:68-99).  `req.query.latitude`/`longitude`
are raw strings or absent; `if (!latitude || !longitude)` answers 400; the
strings are interpolated verbatim into the points URL; each falsy fetch result
answers 500 with its own message; otherwise the forecast document is returned
with status 200.  Second component: the network-call trace. -/
def restForecast (net : Net) (latitude longitude : Option String) :
    RestResponse × List Json :=
  if !(optTruthy latitude) || !(optTruthy longitude) then
    (⟨400, errorBody "Latitude and longitude are required"⟩, [])
  else
    let lat := latitude.getD ""
    let lon := longitude.getD ""
    let pointsUrl := pointsUrlOf lat lon
    let pointsData := makeNWSRequest (net pointsUrl)
    if !(truthy pointsData) then
      (⟨500, errorBody ("Failed to retrieve grid point data for coordinates: "
          ++ lat ++ ", " ++ lon)⟩, [pointsUrl])
    else
      let forecastUrl := getField (getField pointsData "properties") "forecast"
      if !(truthy forecastUrl) then
        (⟨500, errorBody "Failed to get forecast URL"⟩, [pointsUrl])
      else
        let forecastData := makeNWSRequest (net forecastUrl)
        if !(truthy forecastData) then
          (⟨500, errorBody "Failed to retrieve forecast data"⟩, [pointsUrl, forecastUrl])
        else
          (⟨200, forecastData⟩, [pointsUrl, forecastUrl])

/-- Outcome of invoking an MCP tool: either the SDK's zod schema layer rejects
the arguments before the handler runs (an invalid-params error), or the
handler returns its single text content item. -/
inductive ToolOutcome where
  | invalidArgument
  | content (text : String)

/-- Tool `get-alerts` (src/server.js:148-193) together with its parameter
schema `state: z.string().length(2)`: a state string of length ≠ 2 is
rejected by the schema layer and the handler never runs.  The handler
uppercases the state, fetches the alerts URL, and renders one of three texts:
fetch failure, zero features, or the full document. -/
def toolGetAlerts (net : Net) (state : String) : ToolOutcome × List Json :=
  if !(decide (state.length = 2)) then
    (.invalidArgument, [])
  else
    let stateCode := jsUpper state
    let alertsUrl := alertsUrlOf stateCode
    let alertsData := makeNWSRequest (net alertsUrl)
    if !(truthy alertsData) then
      (.content "Failed to retrieve alerts data", [alertsUrl])
    else
      let features := jsOr (getField alertsData "features") (Json.arr [])
      if lengthIsZero features then
        (.content ("No active alerts for " ++ stateCode), [alertsUrl])
      else
        (.content ("Active alerts for " ++ stateCode ++ ":\n\n" ++ stringify alertsData),
          [alertsUrl])

/-- Tool `get-forecast` (src/server.js:195-254) together with its parameter
schema `latitude: z.number().min(-90).max(90)`,
`longitude: z.number().min(-180).max(180)`: out-of-range numbers are rejected
by the schema layer and the handler never runs.  The handler builds the points
URL from `latitude.toFixed(4)` and `longitude.toFixed(4)`, chains the two
fetches, and renders one of four texts. -/
def toolGetForecast (net : Net) (latitude longitude : ℚ) : ToolOutcome × List Json :=
  if latitude < -90 ∨ 90 < latitude ∨ longitude < -180 ∨ 180 < longitude then
    (.invalidArgument, [])
  else
    let pointsUrl := toolPointsUrlOf latitude longitude
    let pointsData := makeNWSRequest (net pointsUrl)
    if !(truthy pointsData) then
      (.content ("Failed to retrieve grid point data for coordinates: "
          ++ numToString latitude ++ ", " ++ numToString longitude
          ++ ". This location may not be supported by the NWS API (only US locations are supported)."),
        [pointsUrl])
    else
      let forecastUrl := getField (getField pointsData "properties") "forecast"
      if !(truthy forecastUrl) then
        (.content "Failed to get forecast URL from grid point data", [pointsUrl])
      else
        let forecastData := makeNWSRequest (net forecastUrl)
        if !(truthy forecastData) then
          (.content "Failed to retrieve forecast data", [pointsUrl, forecastUrl])
        else
          (.content ("Forecast for " ++ numToString latitude ++ ", " ++ numToString longitude
              ++ ":\n\n" ++ stringify forecastData),
            [pointsUrl, forecastUrl])

/-- Outcome of reading the `weather-data` resource: the contents object
`\x7b uri, mimeType, text \x7d`, or a thrown `Error`'s message. -/
inductive ResourceOutcome where
  | contents (uri : String) (mimeType : String) (text : String)
  | thrown (msg : String)

/-- Resource `weather-data` (src/server.js:109-143).  The four query
parameters of the URI (`URLSearchParams.get`: absent → `null`); `data` starts
`null`, the `alerts` branch runs when `type === "alerts" && state`, the
`forecast` branch when `type === "forecast" && latitude && longitude` (the
second fetch only when `pointsData?.properties?.forecast` is truthy); a falsy
`data` at the end throws the one generic error. -/
def weatherDataResource (net : Net) (uri : String)
    (type state latitude longitude : Option String) : ResourceOutcome × List Json :=
  let dataAndCalls : Json × List Json :=
    if type == some "alerts" && optTruthy state then
      let alertsUrl := alertsUrlOf (jsUpper (state.getD ""))
      (makeNWSRequest (net alertsUrl), [alertsUrl])
    else if type == some "forecast" && optTruthy latitude && optTruthy longitude then
      let pointsUrl := pointsUrlOf (latitude.getD "") (longitude.getD "")
      let pointsData := makeNWSRequest (net pointsUrl)
      let forecastLoc := getField (getField pointsData "properties") "forecast"
      if truthy forecastLoc then
        (makeNWSRequest (net forecastLoc), [pointsUrl, forecastLoc])
      else
        (Json.null, [pointsUrl])
    else
      (Json.null, [])
  if !(truthy dataAndCalls.1) then
    (.thrown "Failed to retrieve weather data", dataAndCalls.2)
  else
    (.contents uri "application/json" (stringify dataAndCalls.1), dataAndCalls.2)

/-- The number of characters after the final `'.'` of a string (the number of
decimal places of a rendered fixed-point number). -/
def decimalsAfterPoint (s : String) : ℕ :=
  ((s.data.reverse).takeWhile (fun c => c != '.')).length

/-- Oracle for a dead upstream: every fetch fails at the transport level. -/
def netFail : Net := fun _ => .transportError

/-- A grid-lookup document whose `properties` object lacks the `forecast`
locator field. -/
def gridDocNoForecast : Json := .obj [("properties", .obj [])]

/-- Oracle that answers every fetch with status 200 and a grid document that
has no forecast locator. -/
def netPointsNoLocator : Net := fun _ => .response 200 (some gridDocNoForecast)

/-- A grid-lookup document whose locator points at `"FORECAST-URL"`. -/
def gridDocHappy : Json := .obj [("properties", .obj [("forecast", .str "FORECAST-URL")])]

/-- A concrete forecast document. -/
def forecastDocHappy : Json := .obj [("periods", .arr [.str "tonight"])]

/-- Oracle for a healthy upstream around the coordinate (40.7128, -74.0060):
the points URL resolves to `gridDocHappy`, the extracted locator to
`forecastDocHappy`, anything else fails. -/
def netHappy : Net := fun u =>
  match u with
  | .str s =>
    if s = "https://api.weather.gov/points/40.7128,-74.0060" then
      .response 200 (some gridDocHappy)
    else if s = "FORECAST-URL" then
      .response 200 (some forecastDocHappy)
    else .transportError
  | _ => .transportError

/-- An alerts document with zero alert features. -/
def emptyAlertsDoc : Json := .obj [("features", .arr [])]

/-- Oracle that answers every fetch with status 200 and the empty alerts
document. -/
def netEmptyAlerts : Net := fun _ => .response 200 (some emptyAlertsDoc)

/-! ## Helper lemmas -/

/-- Once both query parameters are present and non-empty, `GET /forecast`
always issues the points fetch first, with the raw parameter strings
interpolated into the URL. -/
theorem restForecast_head_call (net : Net) (l lo : String)
    (hl : l ≠ "") (hlo : lo ≠ "") :
    (restForecast net (some l) (some lo)).2.head? = some (pointsUrlOf l lo) := by
  unfold restForecast
  simp only [optTruthy, hl, hlo, decide_False, Bool.not_false, Bool.and_self,
    Option.getD_some, decide_eq_true_eq]
  split
  · simp_all
  · split
    · rfl
    · split
      · rfl
      · split <;> rfl

/-- `C6`: `makeNWSRequest` collapses every failure mode — non-2xx status,
transport-level failure, and malformed body — into the single `null` outcome,
and a non-`null` result can only be the parsed body of a 2xx response. -/
theorem makeNWSRequest_collapses_failures :
    (∀ status body, responseOk status = false →
        makeNWSRequest (.response status body) = .null) ∧
    (∀ status, makeNWSRequest (.response status none) = .null) ∧
    makeNWSRequest .transportError = .null ∧
    (∀ o, makeNWSRequest o ≠ .null →
        ∃ status j, o = .response status (some j) ∧ responseOk status = true ∧
          makeNWSRequest o = j) := by
  refine ⟨?_, ?_, rfl, ?_⟩
  · intro status body h
    simp [makeNWSRequest, h]
  · intro status
    simp only [makeNWSRequest]
    split <;> rfl
  · intro o h
    match o with
    | .transportError => exact absurd rfl h
    | .response status none =>
      exfalso; apply h; simp only [makeNWSRequest]; split <;> rfl
    | .response status (some j) =>
      simp only [makeNWSRequest] at h ⊢
      cases hok : responseOk status
      · simp [hok] at h
      · exact ⟨status, j, rfl, hok, by simp [hok]⟩

/-- Witness for `C6` at concrete outcomes: a 404, a malformed 200 body and a
transport error all yield `null`. -/
theorem makeNWSRequest_collapses_failures_witness :
    makeNWSRequest (.response 404 (some (.obj []))) = .null ∧
    makeNWSRequest (.response 200 none) = .null ∧
    makeNWSRequest .transportError = .null :=
  ⟨makeNWSRequest_collapses_failures.1 404 _ (by decide),
   makeNWSRequest_collapses_failures.2.1 200,
   makeNWSRequest_collapses_failures.2.2.1⟩

/-- `C1` (counterexample): on the REST surface, the out-of-range coordinate
(999, 0) is not rejected — `GET /forecast?latitude=999&longitude=0` issues the
points fetch (one network call) and reports the upstream failure as a 500, not
an invalid-argument rejection. -/
theorem restForecast_999_issues_fetch :
    restForecast netFail (some "999") (some "0") =
      (⟨500, errorBody "Failed to retrieve grid point data for coordinates: 999, 0"⟩,
        [pointsUrlOf "999" "0"]) ∧
    (restForecast netFail (some "999") (some "0")).2 ≠ [] := by
  constructor
  · rfl
  · rw [show (restForecast netFail (some "999") (some "0")).2 =
        [pointsUrlOf "999" "0"] from rfl]
    exact List.cons_ne_nil _ _

/-- `C1` (amended): only the `get-forecast` tool surface (via its zod
parameter schema) rejects an out-of-range coordinate before any network call;
the REST route performs no range validation and interpolates whatever
non-empty strings it received straight into the points fetch. -/
theorem tool_rejects_out_of_range :
    (∀ (net : Net) (latitude longitude : ℚ),
        latitude < -90 ∨ 90 < latitude ∨ longitude < -180 ∨ 180 < longitude →
        toolGetForecast net latitude longitude = (.invalidArgument, [])) ∧
    (∀ (net : Net) (l lo : String), l ≠ "" → lo ≠ "" →
        (restForecast net (some l) (some lo)).2.head? = some (pointsUrlOf l lo)) := by
  constructor
  · intro net latitude longitude h
    unfold toolGetForecast
    rw [if_pos h]
  · exact restForecast_head_call

/-- Witness for `C1` (amended) at latitude 999: the tool rejects it with zero
calls, while the REST route still issues the points fetch. -/
theorem tool_rejects_out_of_range_witness :
    ((999 : ℚ) < -90 ∨ (90 : ℚ) < 999 ∨ (0 : ℚ) < -180 ∨ (180 : ℚ) < 0) ∧
    toolGetForecast netFail 999 0 = (.invalidArgument, []) ∧
    (restForecast netFail (some "999") (some "0")).2.head? =
      some (pointsUrlOf "999" "0") :=
  ⟨by decide,
   tool_rejects_out_of_range.1 netFail 999 0 (by decide),
   tool_rejects_out_of_range.2 netFail "999" "0" (by decide) (by decide)⟩

/-- `C7` (counterexample): the REST route does not parse the query parameters
as numbers — `"1.0"`/`"2.0"` and `"1.0000"`/`"2.0000"` denote the same
numbers, yet the route issues different upstream URLs, each containing the raw
query string. -/
theorem restForecast_raw_string_urls :
    (restForecast netFail (some "1.0") (some "2.0")).2 =
      [pointsUrlOf "1.0" "2.0"] ∧
    (restForecast netFail (some "1.0000") (some "2.0000")).2 =
      [pointsUrlOf "1.0000" "2.0000"] ∧
    (restForecast netFail (some "1.0") (some "2.0")).2 ≠
      (restForecast netFail (some "1.0000") (some "2.0000")).2 := by
  refine ⟨rfl, rfl, fun h => ?_⟩
  have h2 : pointsUrlOf "1.0" "2.0" = pointsUrlOf "1.0000" "2.0000" := by
    injection (show ([pointsUrlOf "1.0" "2.0"] : List Json) =
      [pointsUrlOf "1.0000" "2.0000"] from h) with hh _
  unfold pointsUrlOf at h2
  injection h2 with hs
  exact absurd hs (by decide)

/-- `C7` (amended): `GET /forecast` answers 400 with zero network calls when
either query parameter is absent or empty (its only local validation); present
parameters are never parsed as numbers — the raw strings are interpolated into
the points URL. -/
theorem restForecast_missing_params_400 :
    (∀ (net : Net) (latitude longitude : Option String),
        latitude = none ∨ latitude = some "" ∨ longitude = none ∨ longitude = some "" →
        restForecast net latitude longitude =
          (⟨400, errorBody "Latitude and longitude are required"⟩, [])) ∧
    (∀ (net : Net) (l lo : String), l ≠ "" → lo ≠ "" →
        (restForecast net (some l) (some lo)).2.head? = some (pointsUrlOf l lo)) := by
  constructor
  · intro net latitude longitude h
    rcases h with h | h | h | h <;> subst h <;>
      simp [restForecast, optTruthy, errorBody]
  · exact restForecast_head_call

/-- Witness for `C7` (amended): a request with no latitude is answered 400
with an empty network-call trace. -/
theorem restForecast_missing_params_400_witness :
    ((none : Option String) = none ∨ (none : Option String) = some "" ∨
      (some "2" : Option String) = none ∨ (some "2" : Option String) = some "") ∧
    restForecast netFail none (some "2") =
      (⟨400, errorBody "Latitude and longitude are required"⟩, []) ∧
    (restForecast netFail (some "1") (some "2")).2.head? =
      some (pointsUrlOf "1" "2") :=
  ⟨Or.inl rfl,
   restForecast_missing_params_400.1 netFail none (some "2") (Or.inl rfl),
   restForecast_missing_params_400.2 netFail "1" "2" (by decide) (by decide)⟩

/-- Every character produced by `digitChar4` is a decimal digit, hence not a
point. -/
theorem digitChar4_ne_dot (n : ℕ) : (digitChar4 n != '.') = true := by
  have h10 : n % 10 = 0 ∨ n % 10 = 1 ∨ n % 10 = 2 ∨ n % 10 = 3 ∨ n % 10 = 4 ∨
      n % 10 = 5 ∨ n % 10 = 6 ∨ n % 10 = 7 ∨ n % 10 = 8 ∨ n % 10 = 9 := by omega
  unfold digitChar4
  rcases h10 with h | h | h | h | h | h | h | h | h | h <;> rw [h] <;> decide

/-- `toFixed(4)` output always carries exactly four characters after its final
point. -/
theorem decimalsAfterPoint_toFixed4 (q : ℚ) : decimalsAfterPoint (toFixed4 q) = 4 := by
  unfold toFixed4 decimalsAfterPoint
  simp only [String.data_append]
  rw [show ∀ m, (frac4 m).data = [digitChar4 (m / 1000), digitChar4 (m / 100),
    digitChar4 (m / 10), digitChar4 m] from fun m => rfl]
  simp [List.takeWhile, digitChar4_ne_dot]

/-- `C2` (counterexample): the REST surface does not format coordinates — for
`latitude=1.23456` the points URL carries the raw five-decimal string, which
differs from the `toFixed(4)` URL the tool would issue for the same numeric
coordinate. -/
theorem restForecast_ignores_precision :
    (restForecast netFail (some "1.23456") (some "2")).2 =
      [pointsUrlOf "1.23456" "2"] ∧
    pointsUrlOf "1.23456" "2" ≠ toolPointsUrlOf (mkRat 123456 100000) 2 ∧
    decimalsAfterPoint "1.23456" = 5 := by
  refine ⟨rfl, fun h => ?_, by decide⟩
  unfold pointsUrlOf toolPointsUrlOf at h
  injection h with hs
  exact absurd hs (by decide)

/-- `C2` (amended): the `get-forecast` tool surface formats both coordinates
with `toFixed(4)` — exactly four decimal places regardless of input precision
— in the points URL; the REST surface interpolates the raw query strings
unchanged. -/
theorem tool_formats_four_decimals :
    (∀ (net : Net) (latitude longitude : ℚ),
        ¬(latitude < -90 ∨ 90 < latitude ∨ longitude < -180 ∨ 180 < longitude) →
        (toolGetForecast net latitude longitude).2.head? =
          some (toolPointsUrlOf latitude longitude)) ∧
    (∀ q : ℚ, decimalsAfterPoint (toFixed4 q) = 4) ∧
    (∀ (net : Net) (l lo : String), l ≠ "" → lo ≠ "" →
        (restForecast net (some l) (some lo)).2.head? = some (pointsUrlOf l lo)) := by
  refine ⟨?_, decimalsAfterPoint_toFixed4, restForecast_head_call⟩
  intro net latitude longitude h
  unfold toolGetForecast
  rw [if_neg h]
  dsimp only
  split
  · rfl
  · split
    · rfl
    · split <;> rfl

/-- Witness for `C2` (amended) at (40.7128, -74.0060): the tool's points URL
is the four-decimal one. -/
theorem tool_formats_four_decimals_witness :
    ¬((mkRat 407128 10000 : ℚ) < -90 ∨ (90 : ℚ) < mkRat 407128 10000 ∨
      (mkRat (-740060) 10000 : ℚ) < -180 ∨ (180 : ℚ) < mkRat (-740060) 10000) ∧
    (toolGetForecast netFail (mkRat 407128 10000) (mkRat (-740060) 10000)).2.head? =
      some (toolPointsUrlOf (mkRat 407128 10000) (mkRat (-740060) 10000)) ∧
    toolPointsUrlOf (mkRat 407128 10000) (mkRat (-740060) 10000) =
      Json.str "https://api.weather.gov/points/40.7128,-74.0060" ∧
    decimalsAfterPoint (toFixed4 (mkRat 407128 10000)) = 4 :=
  ⟨by decide,
   tool_formats_four_decimals.1 netFail _ _ (by decide),
   congrArg Json.str (by decide),
   tool_formats_four_decimals.2.1 (mkRat 407128 10000)⟩

/-- `null` is falsy. -/
theorem truthy_null : truthy .null = false := rfl

/-- `GET /forecast` when the points fetch yields a falsy value: 500 with the
grid-point message, one network call. -/
theorem restForecast_points_failed (net : Net) (l lo : String)
    (hl : l ≠ "") (hlo : lo ≠ "")
    (hpts : truthy (makeNWSRequest (net (pointsUrlOf l lo))) = false) :
    restForecast net (some l) (some lo) =
      (⟨500, errorBody ("Failed to retrieve grid point data for coordinates: "
          ++ l ++ ", " ++ lo)⟩, [pointsUrlOf l lo]) := by
  unfold restForecast
  simp [optTruthy, hl, hlo, hpts]

/-- `GET /forecast` when the points fetch yields a truthy document without a
truthy `properties.forecast` locator: 500 with the forecast-URL message, one
network call. -/
theorem restForecast_no_locator (net : Net) (l lo : String)
    (hl : l ≠ "") (hlo : lo ≠ "")
    (hpts : truthy (makeNWSRequest (net (pointsUrlOf l lo))) = true)
    (hloc : truthy (getField (getField (makeNWSRequest (net (pointsUrlOf l lo)))
        "properties") "forecast") = false) :
    restForecast net (some l) (some lo) =
      (⟨500, errorBody "Failed to get forecast URL"⟩, [pointsUrlOf l lo]) := by
  unfold restForecast
  simp [optTruthy, hl, hlo, hpts, hloc]

/-- `get-forecast` when the points fetch yields a falsy value: the grid-point
failure text, one network call. -/
theorem toolGetForecast_points_failed (net : Net) (latitude longitude : ℚ)
    (h : ¬(latitude < -90 ∨ 90 < latitude ∨ longitude < -180 ∨ 180 < longitude))
    (hpts : truthy (makeNWSRequest (net (toolPointsUrlOf latitude longitude))) = false) :
    toolGetForecast net latitude longitude =
      (.content ("Failed to retrieve grid point data for coordinates: "
          ++ numToString latitude ++ ", " ++ numToString longitude
          ++ ". This location may not be supported by the NWS API (only US locations are supported)."),
        [toolPointsUrlOf latitude longitude]) := by
  unfold toolGetForecast
  rw [if_neg h]
  simp [hpts]

/-- `get-forecast` when the points fetch yields a truthy document without a
truthy locator: the forecast-URL failure text, one network call. -/
theorem toolGetForecast_no_locator (net : Net) (latitude longitude : ℚ)
    (h : ¬(latitude < -90 ∨ 90 < latitude ∨ longitude < -180 ∨ 180 < longitude))
    (hpts : truthy (makeNWSRequest (net (toolPointsUrlOf latitude longitude))) = true)
    (hloc : truthy (getField (getField (makeNWSRequest (net (toolPointsUrlOf latitude longitude)))
        "properties") "forecast") = false) :
    toolGetForecast net latitude longitude =
      (.content "Failed to get forecast URL from grid point data",
        [toolPointsUrlOf latitude longitude]) := by
  unfold toolGetForecast
  rw [if_neg h]
  simp [hpts, hloc]

/-- `weather-data` with `type=forecast` when the grid document carries no
truthy locator (in particular whenever the points fetch itself failed): the
generic error is thrown after exactly one network call. -/
theorem weatherDataResource_forecast_no_locator (net : Net) (uri : String)
    (st : Option String) (l lo : String) (hl : l ≠ "") (hlo : lo ≠ "")
    (hloc : truthy (getField (getField (makeNWSRequest (net (pointsUrlOf l lo)))
        "properties") "forecast") = false) :
    weatherDataResource net uri (some "forecast") st (some l) (some lo) =
      (.thrown "Failed to retrieve weather data", [pointsUrlOf l lo]) := by
  unfold weatherDataResource
  rw [show ((some "forecast" : Option String) == some "alerts") = false from rfl]
  rw [show ((some "forecast" : Option String) == some "forecast") = true from rfl]
  simp [optTruthy, hl, hlo, hloc, truthy_null]

/-- `errorBody` is injective in its message. -/
theorem errorBody_inj (a b : String) (h : errorBody a = errorBody b) : a = b := by
  simp only [errorBody, Json.obj.injEq, List.cons.injEq, Prod.mk.injEq,
    Json.str.injEq, and_true, true_and] at h
  exact h

/-- `C3` (counterexample): on the `weather-data` resource surface, a
successful grid lookup without a forecast locator and an outright failed grid
fetch produce the identical outcome — the same thrown message and the same
trace — so the two failures are not observably distinct there. -/
theorem resource_no_locator_not_distinct :
    weatherDataResource netPointsNoLocator "weather-data" (some "forecast")
        none (some "40") (some "-74") =
      (.thrown "Failed to retrieve weather data", [pointsUrlOf "40" "-74"]) ∧
    weatherDataResource netFail "weather-data" (some "forecast")
        none (some "40") (some "-74") =
      (.thrown "Failed to retrieve weather data", [pointsUrlOf "40" "-74"]) ∧
    weatherDataResource netPointsNoLocator "weather-data" (some "forecast")
        none (some "40") (some "-74") =
      weatherDataResource netFail "weather-data" (some "forecast")
        none (some "40") (some "-74") :=
  ⟨rfl, rfl, rfl⟩

/-- `C3` (amended): on the REST and tool surfaces a successful grid lookup
without a forecast locator yields an error message distinct from the one a
failed grid fetch yields; on the `weather-data` resource surface both collapse
into the identical generic thrown error. -/
theorem forecast_no_locator_distinct :
    (∀ (net : Net) (l lo : String), l ≠ "" → lo ≠ "" →
        truthy (makeNWSRequest (net (pointsUrlOf l lo))) = true →
        truthy (getField (getField (makeNWSRequest (net (pointsUrlOf l lo)))
            "properties") "forecast") = false →
        restForecast net (some l) (some lo) =
          (⟨500, errorBody "Failed to get forecast URL"⟩, [pointsUrlOf l lo])) ∧
    (∀ (net : Net) (l lo : String), l ≠ "" → lo ≠ "" →
        truthy (makeNWSRequest (net (pointsUrlOf l lo))) = false →
        restForecast net (some l) (some lo) =
          (⟨500, errorBody ("Failed to retrieve grid point data for coordinates: "
              ++ l ++ ", " ++ lo)⟩, [pointsUrlOf l lo])) ∧
    (∀ l lo : String,
        errorBody "Failed to get forecast URL" ≠
        errorBody ("Failed to retrieve grid point data for coordinates: "
            ++ l ++ ", " ++ lo)) ∧
    (∀ (net : Net) (latitude longitude : ℚ),
        ¬(latitude < -90 ∨ 90 < latitude ∨ longitude < -180 ∨ 180 < longitude) →
        truthy (makeNWSRequest (net (toolPointsUrlOf latitude longitude))) = true →
        truthy (getField (getField (makeNWSRequest (net (toolPointsUrlOf latitude longitude)))
            "properties") "forecast") = false →
        toolGetForecast net latitude longitude =
          (.content "Failed to get forecast URL from grid point data",
            [toolPointsUrlOf latitude longitude])) ∧
    (∀ (net : Net) (latitude longitude : ℚ),
        ¬(latitude < -90 ∨ 90 < latitude ∨ longitude < -180 ∨ 180 < longitude) →
        truthy (makeNWSRequest (net (toolPointsUrlOf latitude longitude))) = false →
        toolGetForecast net latitude longitude =
          (.content ("Failed to retrieve grid point data for coordinates: "
              ++ numToString latitude ++ ", " ++ numToString longitude
              ++ ". This location may not be supported by the NWS API (only US locations are supported)."),
            [toolPointsUrlOf latitude longitude])) ∧
    (∀ (latitude longitude : ℚ),
        ToolOutcome.content "Failed to get forecast URL from grid point data" ≠
        ToolOutcome.content ("Failed to retrieve grid point data for coordinates: "
            ++ numToString latitude ++ ", " ++ numToString longitude
            ++ ". This location may not be supported by the NWS API (only US locations are supported).")) ∧
    (∀ (net : Net) (uri : String) (st : Option String) (l lo : String),
        l ≠ "" → lo ≠ "" →
        truthy (getField (getField (makeNWSRequest (net (pointsUrlOf l lo)))
            "properties") "forecast") = false →
        weatherDataResource net uri (some "forecast") st (some l) (some lo) =
          (.thrown "Failed to retrieve weather data", [pointsUrlOf l lo])) := by
  refine ⟨restForecast_no_locator, restForecast_points_failed, ?_,
    toolGetForecast_no_locator, toolGetForecast_points_failed, ?_,
    weatherDataResource_forecast_no_locator⟩
  · intro l lo h
    have hs := errorBody_inj _ _ h
    have hlen := congrArg String.length hs
    simp only [String.length_append] at hlen
    rw [show ("Failed to get forecast URL" : String).length = 26 from rfl,
      show ("Failed to retrieve grid point data for coordinates: " : String).length = 52 from rfl,
      show (", " : String).length = 2 from rfl] at hlen
    omega
  · intro latitude longitude h
    injection h with hs
    have hlen := congrArg String.length hs
    simp only [String.length_append] at hlen
    rw [show ("Failed to get forecast URL from grid point data" : String).length = 47 from rfl,
      show ("Failed to retrieve grid point data for coordinates: " : String).length = 52 from rfl,
      show (", " : String).length = 2 from rfl] at hlen
    omega

/-- Witness for `C3` (amended): with an upstream that returns a locator-free
grid document, REST answers 500 "Failed to get forecast URL", the tool answers
its distinct no-locator text, and the resource throws the generic error. -/
theorem forecast_no_locator_distinct_witness :
    restForecast netPointsNoLocator (some "40") (some "-74") =
      (⟨500, errorBody "Failed to get forecast URL"⟩, [pointsUrlOf "40" "-74"]) ∧
    toolGetForecast netPointsNoLocator 40 (-74) =
      (.content "Failed to get forecast URL from grid point data",
        [toolPointsUrlOf 40 (-74)]) ∧
    errorBody "Failed to get forecast URL" ≠
      errorBody ("Failed to retrieve grid point data for coordinates: "
          ++ "40" ++ ", " ++ "-74") ∧
    weatherDataResource netPointsNoLocator "weather-data" (some "forecast")
        none (some "40") (some "-74") =
      (.thrown "Failed to retrieve weather data", [pointsUrlOf "40" "-74"]) :=
  ⟨forecast_no_locator_distinct.1 netPointsNoLocator "40" "-74"
      (by decide) (by decide) rfl rfl,
   forecast_no_locator_distinct.2.2.2.1 netPointsNoLocator 40 (-74)
      (by decide) rfl rfl,
   forecast_no_locator_distinct.2.2.1 "40" "-74",
   forecast_no_locator_distinct.2.2.2.2.2.2 netPointsNoLocator "weather-data"
      none "40" "-74" (by decide) (by decide) rfl⟩

/-- Every falsy JSON value is a non-object, so property access on it gives
`null`: a failed grid fetch in particular yields no truthy locator. -/
theorem locator_falsy_of_points_falsy (pts : Json) (h : truthy pts = false) :
    truthy (getField (getField pts "properties") "forecast") = false := by
  cases pts <;> simp_all [truthy, getField]

/-- `C4`: on all three forecast surfaces, if the grid (points) lookup fails or
produces no truthy locator, the network-call trace is exactly the points URL —
the forecast fetch is never attempted. -/
theorem forecast_short_circuits :
    (∀ (net : Net) (l lo : String), l ≠ "" → lo ≠ "" →
        truthy (makeNWSRequest (net (pointsUrlOf l lo))) = false ∨
          truthy (getField (getField (makeNWSRequest (net (pointsUrlOf l lo)))
              "properties") "forecast") = false →
        (restForecast net (some l) (some lo)).2 = [pointsUrlOf l lo]) ∧
    (∀ (net : Net) (latitude longitude : ℚ),
        ¬(latitude < -90 ∨ 90 < latitude ∨ longitude < -180 ∨ 180 < longitude) →
        truthy (makeNWSRequest (net (toolPointsUrlOf latitude longitude))) = false ∨
          truthy (getField (getField (makeNWSRequest (net (toolPointsUrlOf latitude longitude)))
              "properties") "forecast") = false →
        (toolGetForecast net latitude longitude).2 = [toolPointsUrlOf latitude longitude]) ∧
    (∀ (net : Net) (uri : String) (st : Option String) (l lo : String),
        l ≠ "" → lo ≠ "" →
        truthy (makeNWSRequest (net (pointsUrlOf l lo))) = false ∨
          truthy (getField (getField (makeNWSRequest (net (pointsUrlOf l lo)))
              "properties") "forecast") = false →
        (weatherDataResource net uri (some "forecast") st (some l) (some lo)).2 =
          [pointsUrlOf l lo]) := by
  refine ⟨?_, ?_, ?_⟩
  · intro net l lo hl hlo hfail
    have hloc : truthy (getField (getField (makeNWSRequest (net (pointsUrlOf l lo)))
        "properties") "forecast") = false := by
      rcases hfail with h | h
      · exact locator_falsy_of_points_falsy _ h
      · exact h
    cases hpts : truthy (makeNWSRequest (net (pointsUrlOf l lo)))
    · rw [restForecast_points_failed net l lo hl hlo hpts]
    · rw [restForecast_no_locator net l lo hl hlo hpts hloc]
  · intro net latitude longitude h hfail
    have hloc : truthy (getField (getField (makeNWSRequest
        (net (toolPointsUrlOf latitude longitude))) "properties") "forecast") = false := by
      rcases hfail with hx | hx
      · exact locator_falsy_of_points_falsy _ hx
      · exact hx
    cases hpts : truthy (makeNWSRequest (net (toolPointsUrlOf latitude longitude)))
    · rw [toolGetForecast_points_failed net latitude longitude h hpts]
    · rw [toolGetForecast_no_locator net latitude longitude h hpts hloc]
  · intro net uri st l lo hl hlo hfail
    have hloc : truthy (getField (getField (makeNWSRequest (net (pointsUrlOf l lo)))
        "properties") "forecast") = false := by
      rcases hfail with h | h
      · exact locator_falsy_of_points_falsy _ h
      · exact h
    rw [weatherDataResource_forecast_no_locator net uri st l lo hl hlo hloc]

/-- Witness for `C4`: with a dead upstream at (40, -74), all three surfaces
record exactly one network call, the points URL. -/
theorem forecast_short_circuits_witness :
    (restForecast netFail (some "40") (some "-74")).2 = [pointsUrlOf "40" "-74"] ∧
    (toolGetForecast netFail 40 (-74)).2 = [toolPointsUrlOf 40 (-74)] ∧
    (weatherDataResource netFail "weather-data" (some "forecast") none
        (some "40") (some "-74")).2 = [pointsUrlOf "40" "-74"] :=
  ⟨forecast_short_circuits.1 netFail "40" "-74" (by decide) (by decide) (Or.inl rfl),
   forecast_short_circuits.2.1 netFail 40 (-74) (by decide) (Or.inl rfl),
   forecast_short_circuits.2.2 netFail "weather-data" none "40" "-74"
      (by decide) (by decide) (Or.inl rfl)⟩

/-- Strings with the same uppercase image have the same length and are
simultaneously empty. -/
theorem jsUpper_eq_facts (s t : String) (h : jsUpper s = jsUpper t) :
    s.length = t.length ∧ ((s = "") ↔ (t = "")) := by
  have hdata : s.data.map upperChar = t.data.map upperChar := congrArg String.data h
  refine ⟨?_, ?_⟩
  · have hl := congrArg List.length hdata
    rw [List.length_map, List.length_map] at hl
    exact hl
  · have hs : (s = "") ↔ s.data = [] := by
      constructor
      · intro hh; rw [hh]
      · intro hh; exact String.ext hh
    have ht : (t = "") ↔ t.data = [] := by
      constructor
      · intro hh; rw [hh]
      · intro hh; exact String.ext hh
    rw [hs, ht]
    constructor
    · intro hh
      have h1 : t.data.map upperChar = [] := by rw [← hdata, hh]; rfl
      exact List.map_eq_nil_iff.mp h1
    · intro hh
      have h1 : s.data.map upperChar = [] := by rw [hdata, hh]; rfl
      exact List.map_eq_nil_iff.mp h1

/-- `C5`: all three alert surfaces normalise the region to uppercase before
building the alerts-by-area URL, so any two spellings with the same uppercase
image issue the identical query and produce the identical result; the one URL
fetched is the uppercase-normalised one. -/
theorem alerts_case_insensitive (s t : String) (h : jsUpper s = jsUpper t) (net : Net) :
    restAlerts net s = restAlerts net t ∧
    (restAlerts net s).2 = [alertsUrlOf (jsUpper s)] ∧
    toolGetAlerts net s = toolGetAlerts net t ∧
    (∀ (uri : String) (ty : Option String) (la lo : Option String),
        weatherDataResource net uri ty (some s) la lo =
          weatherDataResource net uri ty (some t) la lo) := by
  obtain ⟨hlen, hemp⟩ := jsUpper_eq_facts s t h
  have hdec : (decide (s = "")) = (decide (t = "")) := decide_eq_decide.mpr hemp
  refine ⟨?_, ?_, ?_, ?_⟩
  · unfold restAlerts
    rw [h]
  · unfold restAlerts
    dsimp only
    split <;> rfl
  · unfold toolGetAlerts
    rw [hlen, h]
  · intro uri ty la lo
    unfold weatherDataResource
    simp only [optTruthy, Option.getD_some, hdec, h]

/-- Witness for `C5`: `"ca"` and `"CA"` behave identically on the REST and
tool alert surfaces, and the query is the uppercase-normalised one. -/
theorem alerts_case_insensitive_witness :
    jsUpper "ca" = jsUpper "CA" ∧
    restAlerts netEmptyAlerts "ca" = restAlerts netEmptyAlerts "CA" ∧
    (restAlerts netEmptyAlerts "ca").2 = [alertsUrlOf (jsUpper "ca")] ∧
    toolGetAlerts netEmptyAlerts "ca" = toolGetAlerts netEmptyAlerts "CA" ∧
    weatherDataResource netEmptyAlerts "weather-data" (some "alerts")
        (some "ca") none none =
      weatherDataResource netEmptyAlerts "weather-data" (some "alerts")
        (some "CA") none none :=
  ⟨by decide,
   (alerts_case_insensitive "ca" "CA" (by decide) netEmptyAlerts).1,
   (alerts_case_insensitive "ca" "CA" (by decide) netEmptyAlerts).2.1,
   (alerts_case_insensitive "ca" "CA" (by decide) netEmptyAlerts).2.2.1,
   (alerts_case_insensitive "ca" "CA" (by decide) netEmptyAlerts).2.2.2
      "weather-data" (some "alerts") none none⟩

/-- Uppercasing preserves string length. -/
theorem jsUpper_length (s : String) : (jsUpper s).length = s.length := by
  show (s.data.map upperChar).length = s.data.length
  rw [List.length_map]

/-- `C8`: an upstream alerts document with zero alert features is a success on
both claimed surfaces — REST answers 200 with the document itself, and the
tool renders the "No active alerts" presentation text, which is not its fetch
failure text. -/
theorem alerts_empty_is_success (net : Net) (state : String) (doc : Json)
    (hdoc : makeNWSRequest (net (alertsUrlOf (jsUpper state))) = doc)
    (htr : truthy doc = true)
    (hfeat : lengthIsZero (jsOr (getField doc "features") (Json.arr [])) = true) :
    restAlerts net state = (⟨200, doc⟩, [alertsUrlOf (jsUpper state)]) ∧
    (restAlerts net state).1.status = 200 ∧
    (state.length = 2 →
      toolGetAlerts net state =
        (.content ("No active alerts for " ++ jsUpper state),
          [alertsUrlOf (jsUpper state)]) ∧
      ("No active alerts for " ++ jsUpper state) ≠ "Failed to retrieve alerts data") := by
  subst hdoc
  refine ⟨?_, ?_, ?_⟩
  · unfold restAlerts
    simp [htr]
  · unfold restAlerts
    simp [htr]
  · intro hlen2
    constructor
    · unfold toolGetAlerts
      simp [hlen2, htr, hfeat]
    · intro h
      have hl := congrArg String.length h
      simp only [String.length_append] at hl
      rw [jsUpper_length, hlen2,
        show ("No active alerts for " : String).length = 21 from rfl,
        show ("Failed to retrieve alerts data" : String).length = 30 from rfl] at hl
      omega

/-- Witness for `C8`: the empty alerts document for `"CA"`. -/
theorem alerts_empty_is_success_witness :
    truthy emptyAlertsDoc = true ∧
    restAlerts netEmptyAlerts "CA" =
      (⟨200, emptyAlertsDoc⟩, [alertsUrlOf (jsUpper "CA")]) ∧
    toolGetAlerts netEmptyAlerts "CA" =
      (.content ("No active alerts for " ++ jsUpper "CA"),
        [alertsUrlOf (jsUpper "CA")]) :=
  ⟨by decide,
   (alerts_empty_is_success netEmptyAlerts "CA" emptyAlertsDoc rfl (by decide) (by decide)).1,
   ((alerts_empty_is_success netEmptyAlerts "CA" emptyAlertsDoc rfl (by decide) (by decide)).2.2
      (by decide)).1⟩

/-- `C9`: on the REST surface, when the points fetch yields a truthy document
with a truthy locator and the forecast fetch yields a truthy document, the
response is status 200 with that forecast document itself — returned
unchanged, no reshaping — and the trace is exactly the two fetches. -/
theorem restForecast_returns_doc_unchanged (net : Net) (l lo : String)
    (hl : l ≠ "") (hlo : lo ≠ "") (floc fd : Json)
    (hloc : getField (getField (makeNWSRequest (net (pointsUrlOf l lo)))
        "properties") "forecast" = floc)
    (hpts : truthy (makeNWSRequest (net (pointsUrlOf l lo))) = true)
    (hloctr : truthy floc = true)
    (hfd : makeNWSRequest (net floc) = fd)
    (hfdtr : truthy fd = true) :
    restForecast net (some l) (some lo) = (⟨200, fd⟩, [pointsUrlOf l lo, floc]) := by
  subst hloc hfd
  unfold restForecast
  simp [optTruthy, hl, hlo, hpts, hloctr, hfdtr]

/-- Witness for `C9`: the end-to-end happy path at (40.7128, -74.0060)
returns `forecastDocHappy` itself with status 200. -/
theorem restForecast_returns_doc_unchanged_witness :
    restForecast netHappy (some "40.7128") (some "-74.0060") =
      (⟨200, forecastDocHappy⟩,
        [pointsUrlOf "40.7128" "-74.0060", Json.str "FORECAST-URL"]) :=
  restForecast_returns_doc_unchanged netHappy "40.7128" "-74.0060"
    (by decide) (by decide) (Json.str "FORECAST-URL") forecastDocHappy
    rfl rfl (by decide) rfl rfl

/-- `C10`: a `weather-data` read whose `type` is neither `alerts` nor
`forecast`, or which lacks a parameter its type requires, issues zero network
calls and throws the same generic message that an upstream fetch failure
throws — no distinct invalid-argument failure exists on this surface. -/
theorem resource_invalid_args_generic_error :
    (∀ (net : Net) (uri : String) (ty st la lo : Option String),
        (ty ≠ some "alerts" ∧ ty ≠ some "forecast") ∨
          (ty = some "alerts" ∧ optTruthy st = false) ∨
          (ty = some "forecast" ∧ (optTruthy la = false ∨ optTruthy lo = false)) →
        weatherDataResource net uri ty st la lo =
          (.thrown "Failed to retrieve weather data", [])) ∧
    (∀ (net : Net) (uri : String) (st : String), st ≠ "" →
        truthy (makeNWSRequest (net (alertsUrlOf (jsUpper st)))) = false →
        ∀ la lo, weatherDataResource net uri (some "alerts") (some st) la lo =
          (.thrown "Failed to retrieve weather data", [alertsUrlOf (jsUpper st)])) := by
  constructor
  · intro net uri ty st la lo h
    have h1 : (ty == some "alerts" && optTruthy st) = false := by
      rcases h with ⟨ha, _⟩ | ⟨ha, hb⟩ | ⟨ha, _⟩
      · simp [beq_eq_false_iff_ne, ha]
      · simp [hb]
      · subst ha; rfl
    have h2 : (ty == some "forecast" && optTruthy la && optTruthy lo) = false := by
      rcases h with ⟨_, ha⟩ | ⟨ha, _⟩ | ⟨ha, hb⟩
      · simp [beq_eq_false_iff_ne, ha]
      · subst ha; rfl
      · rcases hb with hb | hb <;> simp [hb]
    unfold weatherDataResource
    simp [h1, h2, truthy_null]
  · intro net uri st hst hfetch la lo
    unfold weatherDataResource
    simp [optTruthy, hst, hfetch, truthy_null]

/-- Witness for `C10`: an unknown `type=bogus` read throws the generic error
with zero calls; the same error results from a dead upstream on a valid
alerts read. -/
theorem resource_invalid_args_generic_error_witness :
    weatherDataResource netFail "weather-data" (some "bogus") (some "CA")
        none none =
      (.thrown "Failed to retrieve weather data", []) ∧
    weatherDataResource netFail "weather-data" (some "alerts") (some "CA")
        none none =
      (.thrown "Failed to retrieve weather data", [alertsUrlOf (jsUpper "CA")]) :=
  ⟨resource_invalid_args_generic_error.1 netFail "weather-data" (some "bogus")
      (some "CA") none none (Or.inl ⟨by decide, by decide⟩),
   resource_invalid_args_generic_error.2 netFail "weather-data" "CA"
      (by decide) rfl none none⟩
